import Mathlib

/-!
# Catalog Store: a shallow embedding of `src/services/bookService.ts`

The repository is an in-memory library catalog.  The core module
(`bookService`, `src/unnamed/part_001`) owns a mutable array `books` of
`Book` records and exposes `getAllBooks`, `addBook`, `updateBook`,
`deleteBook`, `borrowBook`, `returnBook` and `getRecommendations`.

We embed the service functionally: the mutable array becomes a
`List Book` threaded explicitly through every operation, each mutating
operation returning the new store together with its result.  Machine
details modelled away:

* `structuredClone` produces an independent deep copy; under value
  semantics it is the identity, so copies are the values themselves.
* `Date.now()` (milliseconds since epoch) is an explicit `now : Nat`
  parameter to `borrowBook`; the ISO-string rendering of the due date is
  an injective formatting of the millisecond timestamp, so `dueDate`
  is modelled as the millisecond timestamp itself (`Nat`).
* `(Math.random() * 10000).toFixed(0)` — the randomly generated id — is
  an explicit parameter `r : Nat` (a possible draw is any `r ≤ 10000`),
  rendered with `toString` as in the source.
* A runtime request body may omit a required field, so creation input
  fields are `Option String`; JavaScript falsiness of an (optional)
  string (`!x`) is `jsFalsy`: true exactly for a missing field or the
  empty string.
-/

/-- `Book` record, from `src/models/bookModel.ts` (`src/unnamed/part_001`
import): `id`, `title`, `author`, `genre` are strings, `isBorrowed` a
boolean, `borrowerId` and `dueDate` optional (the due date as the
millisecond timestamp that the source renders to an ISO string). -/
structure Book where
  id : String
  title : String
  author : String
  genre : String
  isBorrowed : Bool
  borrowerId : Option String
  dueDate : Option Nat
deriving Repr, DecidableEq

/-- First seed record (`src/unnamed/part_001` lines 4–10). -/
def gatsby : Book :=
  { id := "1", title := "The Great Gatsby", author := "F. Scott Fitzgerald",
    genre := "Fiction", isBorrowed := false, borrowerId := none, dueDate := none }

/-- Second seed record (`src/unnamed/part_001` lines 11–17). -/
def orwellBook : Book :=
  { id := "2", title := "1984", author := "George Orwell",
    genre := "Dystopian", isBorrowed := false, borrowerId := none, dueDate := none }

/-- Third seed record (`src/unnamed/part_001` lines 18–24). -/
def mockingbird : Book :=
  { id := "3", title := "To Kill a Mockingbird", author := "Harper Lee",
    genre := "Classic", isBorrowed := false, borrowerId := none, dueDate := none }

/-- The seed catalog: the literal `books` array the service starts with
(Gatsby / 1984 / Mockingbird), `src/unnamed/part_001` lines 3–25. -/
def seedBooks : List Book :=
  [gatsby, orwellBook, mockingbird]

/-- `getAllBooks`: `structuredClone(books)` — under value semantics the
clone is the list itself. -/
def getAllBooks (books : List Book) : List Book :=
  books

/-- Creation input (`Omit<Book, "id" | "isBorrowed" | "borrowerId" | "dueDate">`);
fields are optional because the runtime request body may omit them. -/
structure BookInput where
  title : Option String
  author : Option String
  genre : Option String
deriving Repr, DecidableEq

/-- JavaScript falsiness of an optional string: `!x` is true for a
missing field and for the empty string (no trimming happens). -/
def jsFalsy : Option String → Bool
  | none => true
  | some s => s = ""

/-- `addBook` (`src/unnamed/part_001` lines 51–70): throws (here:
`Except.error`, store unchanged) when `!title || !author || !genre`;
otherwise builds the new record with the generated id `toString r`,
`isBorrowed = false` and no borrower/due-date, pushes it, and returns it. -/
def addBook (books : List Book) (input : BookInput) (r : Nat) :
    List Book × Except String Book :=
  if jsFalsy input.title || jsFalsy input.author || jsFalsy input.genre then
    (books, .error "Missing required fields: title, author, and genre are required")
  else
    let newBook : Book :=
      { id := toString r,
        title := input.title.getD "",
        author := input.author.getD "",
        genre := input.genre.getD "",
        isBorrowed := false, borrowerId := none, dueDate := none }
    (books ++ [newBook], .ok newBook)

/-- Update input (`Partial<Book>`): every `Book` field may be supplied
or absent. -/
structure UpdateInput where
  id : Option String
  title : Option String
  author : Option String
  genre : Option String
  isBorrowed : Option Bool
  borrowerId : Option String
  dueDate : Option Nat
deriving Repr, DecidableEq

/-- The effect of `Object.assign(book, safeUpdate)` where `safeUpdate`
is the update input with `id`, `isBorrowed`, `borrowerId`, `dueDate`
deleted (`src/unnamed/part_001` lines 100–111): only a supplied `title`,
`author` or `genre` overwrites the record's field. -/
def applyUpdate (b : Book) (u : UpdateInput) : Book :=
  { b with
    title := u.title.getD b.title,
    author := u.author.getD b.author,
    genre := u.genre.getD b.genre }

/-- Replace the first element of the list satisfying `p` with its image
under `f` (the in-place mutation of the record located by
`books.find(...)`). -/
def modifyFirst (p : Book → Bool) (f : Book → Book) : List Book → List Book
  | [] => []
  | b :: bs => if p b then f b :: bs else b :: modifyFirst p f bs

/-- `updateBook` (`src/unnamed/part_001` lines 90–113): locates the
first record with the id; if absent returns `null` leaving the store
alone; otherwise assigns the non-protected supplied fields onto the
record in place and returns a copy of it. -/
def updateBook (books : List Book) (id : String) (u : UpdateInput) :
    List Book × Option Book :=
  match books.find? (fun b => b.id = id) with
  | none => (books, none)
  | some b =>
      (modifyFirst (fun x => x.id = id) (fun x => applyUpdate x u) books,
       some (applyUpdate b u))

/-- Remove the first element of the list satisfying `p`
(`books.splice(index, 1)` at the index found by `findIndex`). -/
def removeFirst (p : Book → Bool) : List Book → List Book
  | [] => []
  | b :: bs => if p b then bs else b :: removeFirst p bs

/-- `deleteBook` (`src/unnamed/part_001` lines 127–134): if some record
has the id, splice out the first such record and return `true`;
otherwise return `false`. -/
def deleteBook (books : List Book) (id : String) : List Book × Bool :=
  if books.any (fun b => b.id = id) then
    (removeFirst (fun b => b.id = id) books, true)
  else
    (books, false)

/-- The field mutation a successful borrow performs on the located
record (`src/unnamed/part_001` lines 159–165). -/
def borrowFields (borrowerId : String) (now : Nat) (b : Book) : Book :=
  { b with isBorrowed := true, borrowerId := some borrowerId,
           dueDate := some (now + 14 * 24 * 60 * 60 * 1000) }

/-- `borrowBook` (`src/unnamed/part_001` lines 148–168): `null` (store
untouched) when no record has the id or the located record is already
borrowed; otherwise sets `isBorrowed`, `borrowerId` and
`dueDate = now + 14 days` on the record and returns a copy. -/
def borrowBook (books : List Book) (id borrowerId : String) (now : Nat) :
    List Book × Option Book :=
  match books.find? (fun b => b.id = id) with
  | none => (books, none)
  | some b =>
      if b.isBorrowed then (books, none)
      else
        (modifyFirst (fun x => x.id = id) (borrowFields borrowerId now) books,
         some (borrowFields borrowerId now b))

/-- The field mutation a successful return performs on the located
record (`src/unnamed/part_001` lines 192–194). -/
def returnFields (b : Book) : Book :=
  { b with isBorrowed := false, borrowerId := none, dueDate := none }

/-- `returnBook` (`src/unnamed/part_001` lines 181–197): `null` (store
untouched) when no record has the id or the located record is not
borrowed; otherwise clears `isBorrowed`, `borrowerId`, `dueDate` on the
record and returns a copy. -/
def returnBook (books : List Book) (id : String) : List Book × Option Book :=
  match books.find? (fun b => b.id = id) with
  | none => (books, none)
  | some b =>
      if !b.isBorrowed then (books, none)
      else
        (modifyFirst (fun x => x.id = id) returnFields books,
         some (returnFields b))

/-- `getRecommendations` (`src/unnamed/part_001` lines 209–211):
a copy of `books.slice(0, 3)`. -/
def getRecommendations (books : List Book) : List Book :=
  books.take 3

/-- Optional filter values for the search operation. -/
structure BookFilter where
  title : Option String
  author : Option String
  genre : Option String
deriving Repr, DecidableEq

/-- Modelled from the spec: the repository's `src/` has no
find-by-filter function (no search route or service function is
present); the spec's §4.1 "Find by filter" describes it, so it is
modelled from the spec's words: a book matches when each supplied
filter value matches the corresponding field exactly (case-sensitive),
and unset filters impose no constraint. -/
def matchesFilter (f : BookFilter) (b : Book) : Bool :=
  (match f.title with | none => true | some t => b.title = t) &&
  (match f.author with | none => true | some a => b.author = a) &&
  (match f.genre with | none => true | some g => b.genre = g)

/-- Modelled from the spec: `findByFilter` returns every book of the
store matching all supplied filters (conjunctive), in store order. -/
def findByFilter (books : List Book) (f : BookFilter) : List Book :=
  books.filter (matchesFilter f)

/-- One invocation of a mutating store operation, with its
nondeterministic environment (random draw, clock) made explicit. -/
inductive Op where
  | add (input : BookInput) (r : Nat)
  | update (id : String) (u : UpdateInput)
  | del (id : String)
  | borrow (id borrowerId : String) (now : Nat)
  | ret (id : String)
deriving Repr, DecidableEq

/-- The store state after one operation (the result is discarded). -/
def applyOp (books : List Book) : Op → List Book
  | .add input r => (addBook books input r).1
  | .update id u => (updateBook books id u).1
  | .del id => (deleteBook books id).1
  | .borrow id who now => (borrowBook books id who now).1
  | .ret id => (returnBook books id).1

/-- The store state reached from the seed catalog by a sequence of
operations. -/
def run (ops : List Op) : List Book :=
  ops.foldl applyOp seedBooks

/-- The borrowing-state invariant on a single record: `borrowerId` and
`dueDate` are present exactly when `isBorrowed` is true (hence both
absent or both present). -/
def wfBook (b : Book) : Prop :=
  b.borrowerId.isSome = b.isBorrowed ∧ b.dueDate.isSome = b.isBorrowed

instance : DecidablePred wfBook := fun b => by unfold wfBook; infer_instance

/-! ## Helper lemmas -/

theorem jsFalsy_eq_true_iff (o : Option String) :
    jsFalsy o = true ↔ o = none ∨ o = some "" := by
  cases o with
  | none => simp [jsFalsy]
  | some s => simp [jsFalsy]

theorem length_modifyFirst (p : Book → Bool) (f : Book → Book) (l : List Book) :
    (modifyFirst p f l).length = l.length := by
  induction l with
  | nil => rfl
  | cons b bs ih => simp only [modifyFirst]; split <;> simp [ih]

theorem mem_modifyFirst {p : Book → Bool} {f : Book → Book} {l : List Book} {b : Book}
    (h : b ∈ modifyFirst p f l) : b ∈ l ∨ ∃ a ∈ l, b = f a := by
  induction l with
  | nil => simp [modifyFirst] at h
  | cons x xs ih =>
    simp only [modifyFirst] at h
    split at h
    · rcases List.mem_cons.mp h with h1 | h1
      · exact Or.inr ⟨x, List.mem_cons_self .., h1⟩
      · exact Or.inl (List.mem_cons_of_mem _ h1)
    · rcases List.mem_cons.mp h with h1 | h1
      · exact Or.inl (h1 ▸ List.mem_cons_self ..)
      · rcases ih h1 with h2 | ⟨a, ha, hb⟩
        · exact Or.inl (List.mem_cons_of_mem _ h2)
        · exact Or.inr ⟨a, List.mem_cons_of_mem _ ha, hb⟩

theorem find?_modifyFirst_mem {p : Book → Bool} {f : Book → Book} {l : List Book} {b : Book}
    (h : l.find? p = some b) : f b ∈ modifyFirst p f l := by
  induction l with
  | nil => simp at h
  | cons x xs ih =>
    by_cases hp : p x
    · rw [List.find?_cons_of_pos _ hp] at h
      cases h
      simp only [modifyFirst, hp, if_pos]
      exact List.mem_cons_self ..
    · rw [List.find?_cons_of_neg _ hp] at h
      simp only [modifyFirst, hp, if_neg, Bool.false_eq_true, not_false_iff]
      exact List.mem_cons_of_mem _ (ih h)

theorem get_modifyFirst (p : Book → Bool) (f : Book → Book) (l : List Book) (i : Nat)
    (h : i < l.length) (h' : i < (modifyFirst p f l).length) :
    (modifyFirst p f l).get ⟨i, h'⟩ = l.get ⟨i, h⟩ ∨
    (modifyFirst p f l).get ⟨i, h'⟩ = f (l.get ⟨i, h⟩) := by
  induction l generalizing i with
  | nil => simp at h
  | cons x xs ih =>
    revert h'
    simp only [modifyFirst]
    by_cases hp : p x
    · rw [if_pos hp]
      intro h'
      cases i with
      | zero => exact Or.inr rfl
      | succ j => exact Or.inl rfl
    · rw [if_neg hp]
      intro h'
      cases i with
      | zero => exact Or.inl rfl
      | succ j =>
        exact ih j (Nat.lt_of_succ_lt_succ h) (Nat.lt_of_succ_lt_succ h')

theorem mem_removeFirst {p : Book → Bool} {l : List Book} {b : Book}
    (h : b ∈ removeFirst p l) : b ∈ l := by
  induction l with
  | nil => simp [removeFirst] at h
  | cons x xs ih =>
    simp only [removeFirst] at h
    split at h
    · exact List.mem_cons_of_mem _ h
    · rcases List.mem_cons.mp h with h1 | h1
      · exact h1 ▸ List.mem_cons_self ..
      · exact List.mem_cons_of_mem _ (ih h1)

theorem length_removeFirst {p : Book → Bool} {l : List Book} (h : l.any p = true) :
    (removeFirst p l).length + 1 = l.length := by
  induction l with
  | nil => simp at h
  | cons x xs ih =>
    by_cases hp : p x
    · simp [removeFirst, hp]
    · have hx : xs.any p = true := by simpa [List.any_cons, hp] using h
      simp only [removeFirst, hp, Bool.false_eq_true, if_neg, not_false_iff,
        List.length_cons]
      rw [ih hx]

theorem removeFirst_no_match {l : List Book} (id : String)
    (hp : l.Pairwise (fun x y => x.id ≠ y.id)) :
    (removeFirst (fun b => b.id = id) l).any (fun b => b.id = id) = false := by
  induction l with
  | nil => rfl
  | cons x xs ih =>
    rcases List.pairwise_cons.mp hp with ⟨hx, hxs⟩
    by_cases hid : x.id = id
    · simp only [removeFirst, hid, decide_True, if_pos]
      rw [List.any_eq_false]
      intro y hy
      simp only [decide_eq_true_eq]
      have := hx y hy
      simp only [hid] at this
      exact fun h => this h.symm
    · simp only [removeFirst, hid, decide_False, Bool.false_eq_true, if_neg,
        not_false_iff, List.any_cons, ih hxs, Bool.or_false]

theorem wfBook_applyUpdate {b : Book} (u : UpdateInput) (h : wfBook b) :
    wfBook (applyUpdate b u) := h

theorem wfBook_borrowFields (who : String) (now : Nat) (b : Book) :
    wfBook (borrowFields who now b) := by
  constructor <;> rfl

theorem wfBook_returnFields (b : Book) : wfBook (returnFields b) := by
  constructor <;> rfl

theorem wf_applyOp {books : List Book} (hw : ∀ b ∈ books, wfBook b) (op : Op) :
    ∀ b ∈ applyOp books op, wfBook b := by
  cases op with
  | add input r =>
    intro b hb
    simp only [applyOp, addBook] at hb
    split at hb
    · exact hw b hb
    · rcases List.mem_append.mp hb with h | h
      · exact hw b h
      · rw [List.mem_singleton.mp h]
        exact ⟨rfl, rfl⟩
  | update id u =>
    intro b hb
    simp only [applyOp, updateBook] at hb
    rcases hfind : books.find? (fun x => x.id = id) with _ | c <;> rw [hfind] at hb
    · exact hw b hb
    · rcases mem_modifyFirst hb with h | ⟨a, ha, rfl⟩
      · exact hw b h
      · exact wfBook_applyUpdate u (hw a ha)
  | del id =>
    intro b hb
    simp only [applyOp, deleteBook] at hb
    split at hb
    · exact hw b (mem_removeFirst hb)
    · exact hw b hb
  | borrow id who now =>
    intro b hb
    simp only [applyOp, borrowBook] at hb
    rcases hfind : books.find? (fun x => x.id = id) with _ | c <;> rw [hfind] at hb
    · exact hw b hb
    · dsimp only at hb
      by_cases hbor : c.isBorrowed = true
      · rw [if_pos hbor] at hb
        exact hw b hb
      · rw [if_neg hbor] at hb
        rcases mem_modifyFirst hb with h | ⟨a, _, rfl⟩
        · exact hw b h
        · exact wfBook_borrowFields who now a
  | ret id =>
    intro b hb
    simp only [applyOp, returnBook] at hb
    rcases hfind : books.find? (fun x => x.id = id) with _ | c <;> rw [hfind] at hb
    · exact hw b hb
    · dsimp only at hb
      by_cases hbor : (!c.isBorrowed) = true
      · rw [if_pos hbor] at hb
        exact hw b hb
      · rw [if_neg hbor] at hb
        rcases mem_modifyFirst hb with h | ⟨a, _, rfl⟩
        · exact hw b h
        · exact wfBook_returnFields a

theorem foldl_applyOp_wf (ops : List Op) :
    ∀ books : List Book, (∀ b ∈ books, wfBook b) →
      ∀ b ∈ ops.foldl applyOp books, wfBook b := by
  induction ops with
  | nil => intro books hw; simpa using hw
  | cons op ops ih =>
    intro books hw
    exact ih _ (wf_applyOp hw op)

theorem getElem?_modifyFirst (p : Book → Bool) (f : Book → Book) (l : List Book)
    (i : Nat) :
    (modifyFirst p f l)[i]? = l[i]? ∨ (modifyFirst p f l)[i]? = (l[i]?).map f := by
  induction l generalizing i with
  | nil => exact Or.inl rfl
  | cons x xs ih =>
    by_cases hp : p x
    · simp only [modifyFirst, hp, if_pos]
      cases i with
      | zero => right; simp
      | succ j => left; simp
    · simp only [modifyFirst, hp, Bool.false_eq_true, if_neg, not_false_iff]
      cases i with
      | zero => left; simp
      | succ j =>
        simpa only [List.getElem?_cons_succ] using ih j

/-! ## Claims -/

/-- C6: in every store state reachable from the seed catalog by any
sequence of the operations (add, update, delete, borrow, return), every
record satisfies: `borrowerId` and `dueDate` are both absent or both
present, and they are present exactly when `isBorrowed` is true. -/
theorem C6_reachable_states_wf (ops : List Op) :
    ∀ b ∈ run ops, wfBook b :=
  foldl_applyOp_wf ops seedBooks (by decide)

/-- C6 witness: after borrowing the Gatsby record from the seed
catalog, the borrowed record of the reached state satisfies the
invariant. -/
theorem C6_reachable_states_wf_witness :
    wfBook (borrowFields "u7" 0 gatsby) :=
  C6_reachable_states_wf [Op.borrow "1" "u7" 0] (borrowFields "u7" 0 gatsby) (by decide)

/-- C1: `borrowBook` yields the single combined non-success outcome
(`null`) exactly when no record has the id or the located record is
already borrowed; otherwise it returns a copy of the record with
`isBorrowed = true`, the borrower recorded and `dueDate` exactly the
operation's timestamp plus 14 days (in milliseconds, the platform's
unit), and that updated record is stored. -/
theorem C1_borrowBook_behaviour (books : List Book) (id who : String) (now : Nat) :
    ((borrowBook books id who now).2 = none ↔
      (∀ b ∈ books, ¬ b.id = id) ∨
      ∃ b, books.find? (fun x => x.id = id) = some b ∧ b.isBorrowed = true) ∧
    (∀ b, books.find? (fun x => x.id = id) = some b → b.isBorrowed = false →
      (borrowBook books id who now).2 =
        some { b with
                isBorrowed := true
                borrowerId := some who
                dueDate := some (now + 14 * 24 * 60 * 60 * 1000) } ∧
      { b with
         isBorrowed := true
         borrowerId := some who
         dueDate := some (now + 14 * 24 * 60 * 60 * 1000) } ∈
          (borrowBook books id who now).1) := by
  rcases hfind : books.find? (fun x => x.id = id) with _ | c
  · refine ⟨⟨fun _ => Or.inl ?_, fun _ => ?_⟩, fun b hb => ?_⟩
    · intro b hb hbid
      have hnone := List.find?_eq_none.mp hfind b hb
      simp [hbid] at hnone
    · simp [borrowBook, hfind]
    · rw [hfind] at hb
      cases hb
  · by_cases hbor : c.isBorrowed = true
    · refine ⟨⟨fun _ => Or.inr ⟨c, hfind, hbor⟩, fun _ => ?_⟩, fun b hb hbfalse => ?_⟩
      · simp [borrowBook, hfind, hbor]
      · rw [hfind] at hb
        injection hb with hcb
        rw [hcb] at hbor
        rw [hbfalse] at hbor
        cases hbor
    · refine ⟨⟨fun h => ?_, fun h => ?_⟩, fun b hb hbfalse => ?_⟩
      · simp [borrowBook, hfind, hbor] at h
      · exfalso
        rcases h with h | ⟨b, hb, hbor2⟩
        · have hpc := List.find?_some hfind
          exact h c (List.mem_of_find?_eq_some hfind) (of_decide_eq_true hpc)
        · rw [hfind] at hb
          injection hb with hcb
          rw [hcb] at hbor
          exact hbor hbor2
      · rw [hfind] at hb
        injection hb with hcb
        subst hcb
        constructor
        · simp [borrowBook, hfind, hbor, borrowFields]
        · have hmem := find?_modifyFirst_mem (f := borrowFields who now) hfind
          simp only [borrowBook, hfind, hbor, Bool.false_eq_true, if_neg,
            not_false_iff]
          exact hmem

/-- C1 witness: borrowing the Gatsby record from the seed catalog at
time 0 succeeds and returns the record with borrower `u7` and due date
14 days (in milliseconds) later. -/
theorem C1_borrowBook_behaviour_witness :
    (borrowBook seedBooks "1" "u7" 0).2 =
      some { id := "1", title := "The Great Gatsby", author := "F. Scott Fitzgerald",
             genre := "Fiction", isBorrowed := true, borrowerId := some "u7",
             dueDate := some (0 + 14 * 24 * 60 * 60 * 1000) } :=
  ((C1_borrowBook_behaviour seedBooks "1" "u7" 0).2 gatsby (by decide) (by decide)).1

/-- C5: `returnBook` yields the single combined non-success outcome
(`null`) exactly when no record has the id or the located record is not
borrowed, and then leaves the store unchanged; otherwise it returns a
copy of the record with `isBorrowed = false` and `borrowerId`/`dueDate`
removed, and that cleared record is stored. -/
theorem C5_returnBook_behaviour (books : List Book) (id : String) :
    ((returnBook books id).2 = none ↔
      (∀ b ∈ books, ¬ b.id = id) ∨
      ∃ b, books.find? (fun x => x.id = id) = some b ∧ b.isBorrowed = false) ∧
    ((returnBook books id).2 = none → (returnBook books id).1 = books) ∧
    (∀ b, books.find? (fun x => x.id = id) = some b → b.isBorrowed = true →
      (returnBook books id).2 =
        some { b with isBorrowed := false, borrowerId := none, dueDate := none } ∧
      { b with isBorrowed := false, borrowerId := none, dueDate := none } ∈
        (returnBook books id).1) := by
  rcases hfind : books.find? (fun x => x.id = id) with _ | c
  · refine ⟨⟨fun _ => Or.inl ?_, fun _ => ?_⟩, fun _ => ?_, fun b hb => ?_⟩
    · intro b hb hbid
      have hnone := List.find?_eq_none.mp hfind b hb
      simp [hbid] at hnone
    · simp [returnBook, hfind]
    · simp [returnBook, hfind]
    · rw [hfind] at hb
      cases hb
  · by_cases hbor : c.isBorrowed = true
    · refine ⟨⟨fun h => ?_, fun h => ?_⟩, fun h => ?_, fun b hb hbtrue => ?_⟩
      · simp [returnBook, hfind, hbor] at h
      · exfalso
        rcases h with h | ⟨b, hb, hbor2⟩
        · have hpc := List.find?_some hfind
          exact h c (List.mem_of_find?_eq_some hfind) (of_decide_eq_true hpc)
        · rw [hfind] at hb
          injection hb with hcb
          rw [hcb, hbor2] at hbor
          cases hbor
      · simp [returnBook, hfind, hbor] at h
      · rw [hfind] at hb
        injection hb with hcb
        subst hcb
        constructor
        · simp [returnBook, hfind, hbor, returnFields]
        · have hmem := find?_modifyFirst_mem (f := returnFields) hfind
          simp only [returnBook, hfind, hbor, Bool.not_true, Bool.false_eq_true,
            if_neg, not_false_iff]
          exact hmem
    · refine ⟨⟨fun _ => Or.inr ⟨c, hfind, by simpa using hbor⟩, fun _ => ?_⟩,
        fun _ => ?_, fun b hb hbtrue => ?_⟩
      · simp [returnBook, hfind, hbor]
      · simp [returnBook, hfind, hbor]
      · rw [hfind] at hb
        injection hb with hcb
        rw [hcb, hbtrue] at hbor
        cases hbor rfl

/-- C5 witness: after borrowing Gatsby, returning it succeeds and
yields the record with the borrowing state cleared; returning Gatsby
from the pristine seed catalog is the non-success outcome and leaves
the store unchanged. -/
theorem C5_returnBook_behaviour_witness :
    (returnBook (borrowBook seedBooks "1" "u7" 0).1 "1").2 =
      some { id := "1", title := "The Great Gatsby", author := "F. Scott Fitzgerald",
             genre := "Fiction", isBorrowed := false, borrowerId := none,
             dueDate := none } ∧
    (returnBook seedBooks "1").1 = seedBooks :=
  ⟨((C5_returnBook_behaviour (borrowBook seedBooks "1" "u7" 0).1 "1").2.2
      (borrowFields "u7" 0 gatsby) (by decide) (by decide)).1,
   (C5_returnBook_behaviour seedBooks "1").2.1 (by decide)⟩

/-- C2: `updateBook` applies only the supplied `title`/`author`/`genre`
and never changes `id`, `isBorrowed`, `borrowerId`, or `dueDate` of any
stored record, even when those are supplied; an unknown id yields
`null` and leaves the store unchanged. -/
theorem C2_updateBook_frame (books : List Book) (id : String) (u : UpdateInput) :
    ((updateBook books id u).2 = none ↔ ∀ b ∈ books, ¬ b.id = id) ∧
    ((updateBook books id u).2 = none → (updateBook books id u).1 = books) ∧
    (∀ b, books.find? (fun x => x.id = id) = some b →
      (updateBook books id u).2 = some
        { b with
           title := u.title.getD b.title
           author := u.author.getD b.author
           genre := u.genre.getD b.genre }) ∧
    ((updateBook books id u).1.length = books.length) ∧
    (∀ i : Nat,
      ((updateBook books id u).1[i]?).map Book.id = (books[i]?).map Book.id ∧
      ((updateBook books id u).1[i]?).map Book.isBorrowed = (books[i]?).map Book.isBorrowed ∧
      ((updateBook books id u).1[i]?).map Book.borrowerId = (books[i]?).map Book.borrowerId ∧
      ((updateBook books id u).1[i]?).map Book.dueDate = (books[i]?).map Book.dueDate) := by
  rcases hfind : books.find? (fun x => x.id = id) with _ | c
  · refine ⟨⟨fun _ => ?_, fun _ => ?_⟩, fun _ => ?_, fun b hb => ?_, ?_, ?_⟩
    · intro b hb hbid
      have hnone := List.find?_eq_none.mp hfind b hb
      simp [hbid] at hnone
    · simp [updateBook, hfind]
    · simp [updateBook, hfind]
    · rw [hfind] at hb
      cases hb
    · simp [updateBook, hfind]
    · intro i
      simp [updateBook, hfind]
  · refine ⟨⟨fun h => ?_, fun h => ?_⟩, fun h => ?_, fun b hb => ?_, ?_, ?_⟩
    · simp [updateBook, hfind] at h
    · exfalso
      have hpc := List.find?_some hfind
      exact h c (List.mem_of_find?_eq_some hfind) (of_decide_eq_true hpc)
    · simp [updateBook, hfind] at h
    · rw [hfind] at hb
      injection hb with hcb
      subst hcb
      simp [updateBook, hfind, applyUpdate]
    · simp [updateBook, hfind, length_modifyFirst]
    · intro i
      simp only [updateBook, hfind]
      rcases getElem?_modifyFirst (fun x => x.id = id) (fun x => applyUpdate x u)
          books i with heq | heq <;> rw [heq]
      · exact ⟨rfl, rfl, rfl, rfl⟩
      · cases books[i]? <;> exact ⟨rfl, rfl, rfl, rfl⟩

/-- C2 witness: updating the 1984 record with a new title together with
forged `id`, `isBorrowed`, `borrowerId`, `dueDate` values changes only
the title; updating an unknown id yields `null` and leaves the seed
catalog unchanged. -/
theorem C2_updateBook_frame_witness :
    (updateBook seedBooks "2"
        { id := some "999", title := some "New", author := none, genre := none,
          isBorrowed := some true, borrowerId := some "evil", dueDate := some 42 }).2 =
      some { id := "2", title := "New", author := "George Orwell",
             genre := "Dystopian", isBorrowed := false, borrowerId := none,
             dueDate := none } ∧
    (updateBook seedBooks "9"
        { id := some "999", title := some "New", author := none, genre := none,
          isBorrowed := some true, borrowerId := some "evil", dueDate := some 42 }).1 =
      seedBooks :=
  ⟨(C2_updateBook_frame seedBooks "2"
      { id := some "999", title := some "New", author := none, genre := none,
        isBorrowed := some true, borrowerId := some "evil", dueDate := some 42 }).2.2.1
      orwellBook (by decide),
   (C2_updateBook_frame seedBooks "9"
      { id := some "999", title := some "New", author := none, genre := none,
        isBorrowed := some true, borrowerId := some "evil", dueDate := some 42 }).2.1
      ((C2_updateBook_frame seedBooks "9" _).1.mpr (by decide))⟩

/-- A creation input whose three fields are present and non-empty. -/
def validInput : BookInput :=
  { title := some "T", author := some "A", genre := some "G" }

/-- C3 counterexample: the id is generated by a random draw with no
uniqueness check, so the draw `r = 1` (a possible outcome of
`(Math.random() * 10000).toFixed(0)`) produces id "1", which equals the
id of the seed Gatsby record already in the store. -/
theorem C3_addBook_id_can_collide :
    (addBook seedBooks validInput 1).2 =
      Except.ok { id := "1", title := "T", author := "A", genre := "G",
                  isBorrowed := false, borrowerId := none, dueDate := none } ∧
    "1" ∈ seedBooks.map Book.id ∧ (1 : Nat) ≤ 10000 :=
  ⟨rfl, by decide, by decide⟩

/-- C3 amended: for every valid creation input, `addBook` returns a
Book whose id is the string rendering of the random draw (with no
guarantee of distinctness from ids already in the store), with
`isBorrowed = false` and no `borrowerId`/`dueDate`, and appends that
record to the store. -/
theorem C3_addBook_success (books : List Book) (input : BookInput) (r : Nat)
    (t a g : String) (ht : input.title = some t) (ha : input.author = some a)
    (hg : input.genre = some g) (ht2 : t ≠ "") (ha2 : a ≠ "") (hg2 : g ≠ "") :
    addBook books input r =
      (books ++ [{ id := toString r, title := t, author := a, genre := g,
                   isBorrowed := false, borrowerId := none, dueDate := none }],
       Except.ok { id := toString r, title := t, author := a, genre := g,
                   isBorrowed := false, borrowerId := none, dueDate := none }) := by
  simp [addBook, jsFalsy, ht, ha, hg, ht2, ha2, hg2]

/-- C3 amended witness: adding a valid book to the seed catalog with
draw 42 appends the record with id "42", not borrowed, no borrower or
due date. -/
theorem C3_addBook_success_witness :
    addBook seedBooks validInput 42 =
      (seedBooks ++ [{ id := "42", title := "T", author := "A", genre := "G",
                       isBorrowed := false, borrowerId := none, dueDate := none }],
       Except.ok { id := "42", title := "T", author := "A", genre := "G",
                   isBorrowed := false, borrowerId := none, dueDate := none }) :=
  C3_addBook_success seedBooks validInput 42 "T" "A" "G" rfl rfl rfl
    (by decide) (by decide) (by decide)

/-- A creation input whose title is whitespace only. -/
def wsInput : BookInput :=
  { title := some " ", author := some "A", genre := some "G" }

/-- C4 counterexample: a whitespace-only title is truthy in JavaScript
(`!" "` is false, no trimming), so the creation succeeds — no
`ValidationError` — and the record is appended, contradicting the
trimming-equivalent reading of emptiness. -/
theorem C4_whitespace_title_accepted :
    addBook seedBooks wsInput 500 =
      (seedBooks ++ [{ id := "500", title := " ", author := "A", genre := "G",
                       isBorrowed := false, borrowerId := none, dueDate := none }],
       Except.ok { id := "500", title := " ", author := "A", genre := "G",
                   isBorrowed := false, borrowerId := none, dueDate := none }) := rfl

/-- C4 amended: `addBook` fails with the validation error exactly when
`title`, `author` or `genre` is missing or is the empty string (no
trimming: whitespace-only strings are accepted), and on failure the
store is left unchanged. -/
theorem C4_addBook_validation (books : List Book) (input : BookInput) (r : Nat) :
    ((∃ e, (addBook books input r).2 = Except.error e) ↔
      (input.title = none ∨ input.title = some "" ∨ input.author = none ∨
       input.author = some "" ∨ input.genre = none ∨ input.genre = some "")) ∧
    ((∃ e, (addBook books input r).2 = Except.error e) →
      (addBook books input r).1 = books) := by
  have hcond : (∃ e, (addBook books input r).2 = Except.error e) ↔
      (jsFalsy input.title || jsFalsy input.author || jsFalsy input.genre) = true := by
    by_cases hf : (jsFalsy input.title || jsFalsy input.author || jsFalsy input.genre) = true
    · simp [addBook, hf]
    · simp [addBook, hf]
  constructor
  · rw [hcond, Bool.or_eq_true, Bool.or_eq_true, jsFalsy_eq_true_iff,
      jsFalsy_eq_true_iff, jsFalsy_eq_true_iff]
    tauto
  · intro he
    rw [hcond] at he
    simp [addBook, he]

/-- C4 amended witness: an empty-string title on the seed catalog fails
and the catalog is unchanged. -/
theorem C4_addBook_validation_witness :
    (addBook seedBooks { title := some "", author := some "A", genre := some "G" } 7).1 =
      seedBooks :=
  (C4_addBook_validation seedBooks
      { title := some "", author := some "A", genre := some "G" } 7).2
    ⟨"Missing required fields: title, author, and genre are required", rfl⟩

/-- C7 (find-by-filter is modelled from the spec, no source function
exists): `findByFilter` returns exactly the books matching every
supplied filter, filters are conjunctive and unset filters impose no
constraint; on the seed catalog the genre filter "Fiction" returns
exactly the Gatsby record. -/
theorem C7_findByFilter_behaviour :
    (∀ (books : List Book) (f : BookFilter) (b : Book),
        b ∈ findByFilter books f ↔ b ∈ books ∧ matchesFilter f b = true) ∧
    (∀ (f : BookFilter) (b : Book),
        matchesFilter f b = true ↔
          ((∀ t, f.title = some t → b.title = t) ∧
           (∀ a, f.author = some a → b.author = a) ∧
           (∀ g, f.genre = some g → b.genre = g))) ∧
    findByFilter seedBooks
        { title := none, author := none, genre := some "Fiction" } = [gatsby] := by
  refine ⟨?_, ?_, by decide⟩
  · intro books f b
    simp [findByFilter, List.mem_filter]
  · intro f b
    rcases f with ⟨ft, fa, fg⟩
    rcases ft with _ | t <;> rcases fa with _ | a <;> rcases fg with _ | g <;>
      simp [matchesFilter, and_assoc]

/-- C7 witness: the Gatsby record is in the result of filtering the
seed catalog by genre "Fiction". -/
theorem C7_findByFilter_behaviour_witness :
    gatsby ∈ findByFilter seedBooks
      { title := none, author := none, genre := some "Fiction" } :=
  (C7_findByFilter_behaviour.1 seedBooks
      { title := none, author := none, genre := some "Fiction" } gatsby).mpr
    ⟨by decide, by decide⟩

/-- A record used to build a store with a duplicated id. -/
def twinBook : Book :=
  { id := "7", title := "X", author := "Y", genre := "Z", isBorrowed := false,
    borrowerId := none, dueDate := none }

/-- C8 counterexample: in a store holding two records with the same id
"7" (such stores are reachable, since the random id generation has no
uniqueness check), deleting id "7" twice returns true both times — the
second call does not return false as the claim states for every store
state. -/
theorem C8_second_delete_can_return_true :
    (deleteBook [twinBook, twinBook] "7").2 = true ∧
    (deleteBook (deleteBook [twinBook, twinBook] "7").1 "7").2 = true := by
  decide

/-- C8 amended: `deleteBook` returns true and removes the first record
with the id exactly when some record with the id is present (the store
shrinks by one and no new record appears), and returns false leaving
the store unchanged when absent; when the store's ids are pairwise
distinct, deleting the same id twice returns true then false. -/
theorem C8_deleteBook_behaviour (books : List Book) (id : String) :
    ((deleteBook books id).2 = true ↔ ∃ b ∈ books, b.id = id) ∧
    ((deleteBook books id).2 = false → (deleteBook books id).1 = books) ∧
    ((deleteBook books id).2 = true →
      (deleteBook books id).1.length + 1 = books.length) ∧
    (∀ b ∈ (deleteBook books id).1, b ∈ books) ∧
    (books.Pairwise (fun x y => x.id ≠ y.id) → (deleteBook books id).2 = true →
      (deleteBook (deleteBook books id).1 id).2 = false) := by
  by_cases hany : books.any (fun b => b.id = id) = true
  · refine ⟨⟨fun _ => ?_, fun _ => ?_⟩, fun h => ?_, fun _ => ?_, fun b hb => ?_,
      fun hp _ => ?_⟩
    · rcases List.any_eq_true.mp hany with ⟨b, hb, hpb⟩
      exact ⟨b, hb, of_decide_eq_true hpb⟩
    · simp [deleteBook, hany]
    · simp [deleteBook, hany] at h
    · simp only [deleteBook, hany, if_pos]
      exact length_removeFirst hany
    · simp only [deleteBook, hany, if_pos] at hb
      exact mem_removeFirst hb
    · have h2 := removeFirst_no_match id hp
      simp [deleteBook, hany, h2]
  · refine ⟨⟨fun h => ?_, fun h => ?_⟩, fun _ => ?_, fun h => ?_, fun b hb => ?_,
      fun _ h => ?_⟩
    · simp [deleteBook, hany] at h
    · exfalso
      rcases h with ⟨b, hb, hbid⟩
      exact hany (List.any_eq_true.mpr ⟨b, hb, decide_eq_true hbid⟩)
    · simp [deleteBook, hany]
    · simp [deleteBook, hany] at h
    · simpa [deleteBook, hany] using hb
    · simp [deleteBook, hany] at h

/-- C8 amended witness: on the seed catalog (pairwise-distinct ids),
deleting id "2" twice returns false the second time. -/
theorem C8_deleteBook_behaviour_witness :
    (deleteBook (deleteBook seedBooks "2").1 "2").2 = false :=
  (C8_deleteBook_behaviour seedBooks "2").2.2.2.2 (by decide) (by decide)

/-- C9: `getRecommendations` returns exactly the first
`min 3 (length)` records of the store in order: all records when the
store holds at most three, exactly three (the first three) otherwise.
It takes the store only as input, so the store is not modified. -/
theorem C9_getRecommendations_behaviour (books : List Book) :
    (getRecommendations books).length = min 3 books.length ∧
    (∀ i : Nat, i < (getRecommendations books).length →
      (getRecommendations books)[i]? = books[i]?) ∧
    (books.length ≤ 3 → getRecommendations books = books) ∧
    (3 ≤ books.length → (getRecommendations books).length = 3) := by
  refine ⟨?_, ?_, ?_, ?_⟩
  · simp [getRecommendations]
  · intro i hi
    simp only [getRecommendations, List.length_take] at hi ⊢
    rw [List.getElem?_take_of_lt (lt_min_iff.mp hi).1]
  · intro h
    simp [getRecommendations, List.take_of_length_le h]
  · intro h
    simp [getRecommendations, Nat.min_eq_left h]

/-- C9 witness: recommendations on the three-book seed catalog return
the whole catalog, and their length is 3. -/
theorem C9_getRecommendations_behaviour_witness :
    getRecommendations seedBooks = seedBooks ∧
    (getRecommendations seedBooks).length = 3 :=
  ⟨(C9_getRecommendations_behaviour seedBooks).2.2.1 (by decide),
   (C9_getRecommendations_behaviour seedBooks).2.2.2 (by decide)⟩

/-- C10: `updateBook` validates nothing: for any stored record, an
update supplying empty strings for `title`, `author` or `genre`
succeeds (the operation has no error outcome besides the not-found
`null`, and here it returns the updated record) and the empty string is
stored. -/
theorem C10_updateBook_accepts_empty (books : List Book) (id : String)
    (u : UpdateInput) (b : Book)
    (hfind : books.find? (fun x => x.id = id) = some b) :
    (updateBook books id u).2 = some (applyUpdate b u) ∧
    (u.title = some "" → (applyUpdate b u).title = "") ∧
    (u.author = some "" → (applyUpdate b u).author = "") ∧
    (u.genre = some "" → (applyUpdate b u).genre = "") ∧
    applyUpdate b u ∈ (updateBook books id u).1 := by
  refine ⟨?_, ?_, ?_, ?_, ?_⟩
  · simp [updateBook, hfind]
  · intro h
    simp [applyUpdate, h]
  · intro h
    simp [applyUpdate, h]
  · intro h
    simp [applyUpdate, h]
  · simp only [updateBook, hfind]
    exact find?_modifyFirst_mem (f := fun x => applyUpdate x u) hfind

/-- C10 witness: updating the Gatsby record with an empty title
succeeds and the stored/returned record has the empty title. -/
theorem C10_updateBook_accepts_empty_witness :
    (updateBook seedBooks "1"
        { id := none, title := some "", author := none, genre := none,
          isBorrowed := none, borrowerId := none, dueDate := none }).2 =
      some (applyUpdate gatsby
        { id := none, title := some "", author := none, genre := none,
          isBorrowed := none, borrowerId := none, dueDate := none }) ∧
    (applyUpdate gatsby
        { id := none, title := some "", author := none, genre := none,
          isBorrowed := none, borrowerId := none, dueDate := none }).title = "" :=
  ⟨(C10_updateBook_accepts_empty seedBooks "1" _ gatsby (by decide)).1,
   (C10_updateBook_accepts_empty seedBooks "1"
        { id := none, title := some "", author := none, genre := none,
          isBorrowed := none, borrowerId := none, dueDate := none }
        gatsby (by decide)).2.1 rfl⟩
